import Mathlib

/-!
Verification of the `db` transaction wrapper and the struct-tag code
generator of the beagle repository (src/cmd/beagle-db/beagle-db.go).

The Go code is shallowly embedded:

* A prepared statement handle (`*sqlx.Stmt`) is an opaque value, modelled
  as a natural number.
* The underlying driver transaction (`*sqlx.Tx`) is opaque; its fallible
  primitives (`Preparex`, `Stmt.Get`, `Stmt.Select`) are oracles passed in
  as pure functions.
* Go's `error` values are modelled by `DbError`: the fixed sentinel errors
  of the db package plus arbitrary driver errors carrying a message.
* Side effects (driver prepare round-trips, delegate invocations, log
  output) are made observable as an `Event` trace returned next to the
  result and the updated transaction state.
* The `sync.Map` statement cache is an association list; `Store` is only
  ever called for a key whose `Load` just returned none, so appending is
  an exact model of the single-threaded behaviour.
-/

/-- Opaque model of a prepared statement handle (`*sqlx.Stmt`). -/
abbrev Stmt := Nat

/-- Opaque model of one positional query parameter (`interface\x7b\x7d`). -/
abbrev Param := String

/-- Modelled from the spec: the db package's error values. The five
capability sentinels (`ErrNoGetterFound` … `ErrNoDeleterFound`) are
declared outside the given source file; the spec describes them as one
fixed, distinct sentinel per dispatch operation. `driver` carries an
error produced by the underlying SQL driver, propagated verbatim. -/
inductive DbError where
  | noGetterFound
  | noInserterFound
  | noUpdaterFound
  | noInsertOrUpdaterFound
  | noDeleterFound
  | driver (msg : String)
deriving DecidableEq

def ErrNoGetterFound : DbError := DbError.noGetterFound

def ErrNoInserterFound : DbError := DbError.noInserterFound

def ErrNoUpdaterFound : DbError := DbError.noUpdaterFound

def ErrNoInsertOrUpdaterFound : DbError := DbError.noInsertOrUpdaterFound

def ErrNoDeleterFound : DbError := DbError.noDeleterFound

/-- `err.Error()` on the model errors. -/
def DbError.message : DbError → String
  | .noGetterFound => "no getter found"
  | .noInserterFound => "no inserter found"
  | .noUpdaterFound => "no updater found"
  | .noInsertOrUpdaterFound => "no insert-or-updater found"
  | .noDeleterFound => "no deleter found"
  | .driver msg => msg

/-- Modelled from the spec: `db.Queryx` is a pair of a query text
(`db.Query`, a string type) and an ordered list of positional
parameters; its declaration lives outside the given source file. -/
structure Queryx where
  Query : String
  Params : List Param
deriving DecidableEq

/-- Observable effects of a wrapper call: driver round-trips, delegate
invocations (with the exact arguments passed), and log output. -/
inductive Event where
  | driverPrepare (query : String)
  | stmtSelect (stmt : Stmt) (params : List Param)
  | stmtGet (stmt : Stmt) (params : List Param)
  | callGet (qx : Queryx)
  | callSelect (query : String) (params : List Param)
  | callInsert
  | callUpdate
  | callInsertOrUpdate
  | callDelete
  | logDebug (msg : String)
  | logInfo (msg : String) (elapsedNanos : Nat)
  | logWarning (msg : String) (elapsedNanos : Nat) (queries : List String)
  | logError (msg : String)
deriving DecidableEq

/-- The mutable state of `db.Tx`: the statement cache (`sync.Map` keyed by
exact query text) and the diagnostic query log. The embedded `*sqlx.Tx`
handle and the start timestamp are opaque and are supplied to each
operation as oracles (`prep`, elapsed nanoseconds). -/
structure Tx where
  statementsCache : List (String × Stmt) := []
  queries : List String := []
deriving DecidableEq

/-- `Tx.Preparex` (beagle-db.go lines 610-624): append the query text to
the diagnostic log, return the cached statement on an exact-text cache
hit, otherwise call the driver's prepare; on success store the statement,
on failure return the driver error unchanged. The Go code appends to
`tx.queries` before the cache lookup, so every branch below carries the
appended log. -/
def Tx.Preparex (prep : String → Except DbError Stmt) (tx : Tx) (query : String) :
    Except DbError Stmt × Tx × List Event :=
  match tx.statementsCache.lookup query with
  | some stmt => (Except.ok stmt, { tx with queries := tx.queries ++ [query] }, [])
  | none =>
    match prep query with
    | Except.error e =>
      (Except.error e, { tx with queries := tx.queries ++ [query] },
       [Event.driverPrepare query])
    | Except.ok stmt =>
      (Except.ok stmt,
       { tx with
           queries := tx.queries ++ [query]
           statementsCache := tx.statementsCache ++ [(query, stmt)] },
       [Event.driverPrepare query])

/-- Iterate `Tx.Preparex` over a list of query texts (an arbitrary later
history of prepare calls within the same transaction). -/
def Tx.preparexMany (prep : String → Except DbError Stmt) (tx : Tx) : List String → Tx
  | [] => tx
  | q :: qs => Tx.preparexMany prep (Tx.Preparex prep tx q).2.1 qs

theorem lookup_append_of_some {q : String} {s : Stmt} :
    ∀ (l l' : List (String × Stmt)), l.lookup q = some s → (l ++ l').lookup q = some s := by
  intro l l' h
  induction l with
  | nil => simp at h
  | cons kv t ih =>
    obtain ⟨k, v⟩ := kv
    rw [List.cons_append, List.lookup_cons]
    rw [List.lookup_cons] at h
    cases hqk : (q == k) with
    | true => rw [hqk] at h; simpa using h
    | false => rw [hqk] at h; simpa using ih h

theorem lookup_append_self {q : String} {s : Stmt} :
    ∀ (l : List (String × Stmt)), l.lookup q = none → (l ++ [(q, s)]).lookup q = some s := by
  intro l h
  induction l with
  | nil => simp [List.lookup_cons]
  | cons kv t ih =>
    obtain ⟨k, v⟩ := kv
    rw [List.cons_append, List.lookup_cons]
    rw [List.lookup_cons] at h
    cases hqk : (q == k) with
    | true => rw [hqk] at h; simp at h
    | false => rw [hqk] at h; simpa using ih h

theorem Preparex_hit (prep : String → Except DbError Stmt) (tx : Tx) (q : String) (s : Stmt)
    (h : tx.statementsCache.lookup q = some s) :
    Tx.Preparex prep tx q = (Except.ok s, { tx with queries := tx.queries ++ [q] }, []) := by
  unfold Tx.Preparex
  rw [h]

theorem Preparex_cache_preserved (prep : String → Except DbError Stmt) (tx : Tx)
    (q q' : String) (s : Stmt) (h : tx.statementsCache.lookup q = some s) :
    ((Tx.Preparex prep tx q').2.1).statementsCache.lookup q = some s := by
  unfold Tx.Preparex
  cases hl : tx.statementsCache.lookup q' with
  | some stmt => exact h
  | none =>
    cases hp : prep q' with
    | error e => exact h
    | ok stmt => exact lookup_append_of_some _ _ h

theorem Preparex_ok_cached (prep : String → Except DbError Stmt) (tx : Tx) (q : String)
    (s : Stmt) (h : (Tx.Preparex prep tx q).1 = Except.ok s) :
    ((Tx.Preparex prep tx q).2.1).statementsCache.lookup q = some s := by
  unfold Tx.Preparex at h ⊢
  cases hl : tx.statementsCache.lookup q with
  | some stmt =>
    rw [hl] at h
    simp at h
    subst h
    exact hl
  | none =>
    rw [hl] at h
    cases hp : prep q with
    | error e => rw [hp] at h; simp at h
    | ok stmt =>
      rw [hp] at h
      simp at h
      subst h
      exact lookup_append_self _ hl

theorem preparexMany_cache_preserved (prep : String → Except DbError Stmt)
    (q : String) (s : Stmt) :
    ∀ (qs : List String) (tx : Tx), tx.statementsCache.lookup q = some s →
      (Tx.preparexMany prep tx qs).statementsCache.lookup q = some s := by
  intro qs
  induction qs with
  | nil => intro tx h; exact h
  | cons q' qs' ih =>
    intro tx h
    exact ih _ (Preparex_cache_preserved prep tx q q' s h)

/-- C1: once `Preparex` has successfully produced (and hence cached) a
statement for a query text, every later `Preparex` call on the same
transaction with the identical text — after any interleaved history of
further prepare calls — returns that same statement and performs no
driver prepare round-trip (its event trace is empty). -/
theorem preparex_cached_statement_stable (prep : String → Except DbError Stmt)
    (tx : Tx) (q : String) (s : Stmt) (qs : List String)
    (h : (Tx.Preparex prep tx q).1 = Except.ok s) :
    (Tx.Preparex prep (Tx.preparexMany prep (Tx.Preparex prep tx q).2.1 qs) q).1 =
      Except.ok s ∧
    (Tx.Preparex prep (Tx.preparexMany prep (Tx.Preparex prep tx q).2.1 qs) q).2.2 = [] := by
  have h1 := Preparex_ok_cached prep tx q s h
  have h2 := preparexMany_cache_preserved prep q s qs _ h1
  rw [Preparex_hit prep _ q s h2]
  exact ⟨rfl, rfl⟩

def prepOk : String → Except DbError Stmt := fun _ => Except.ok 1

def prepFail : String → Except DbError Stmt := fun _ => Except.error (DbError.driver "boom")

def txEmpty : Tx := { statementsCache := [], queries := [] }

theorem preparex_cached_statement_stable_witness :
    (Tx.Preparex prepOk
      (Tx.preparexMany prepOk (Tx.Preparex prepOk txEmpty "SELECT 1").2.1
        ["UPDATE t SET a = 1"]) "SELECT 1").1 = Except.ok 1 ∧
    (Tx.Preparex prepOk
      (Tx.preparexMany prepOk (Tx.Preparex prepOk txEmpty "SELECT 1").2.1
        ["UPDATE t SET a = 1"]) "SELECT 1").2.2 = [] :=
  preparex_cached_statement_stable prepOk txEmpty "SELECT 1" 1 ["UPDATE t SET a = 1"] rfl

/-- C2 counterexample: with a driver whose prepare fails, `Preparex` on an
empty transaction returns the driver error and caches nothing, but the
query text IS appended to the transaction's query log — the log does not
stay unchanged on the error path as the claim states. -/
theorem preparex_error_appends_log_counterexample :
    (Tx.Preparex prepFail txEmpty "SELECT 1").1 =
      Except.error (DbError.driver "boom") ∧
    (Tx.Preparex prepFail txEmpty "SELECT 1").2.1.statementsCache = [] ∧
    (Tx.Preparex prepFail txEmpty "SELECT 1").2.1.queries = ["SELECT 1"] ∧
    (Tx.Preparex prepFail txEmpty "SELECT 1").2.1.queries ≠ txEmpty.queries := by
  refine ⟨rfl, rfl, rfl, ?_⟩
  decide

/-- C2 (amended): when the query text is not cached and the underlying
driver prepare fails, `Preparex` returns exactly the driver's error and
stores nothing in the statement cache, but it still appends the query
text to the transaction's query-log sequence (the log records every
prepare attempt, including failing ones). -/
theorem preparex_error_path (prep : String → Except DbError Stmt) (tx : Tx)
    (q : String) (e : DbError)
    (hmiss : tx.statementsCache.lookup q = none) (hfail : prep q = Except.error e) :
    Tx.Preparex prep tx q =
      (Except.error e, { tx with queries := tx.queries ++ [q] },
       [Event.driverPrepare q]) := by
  unfold Tx.Preparex
  rw [hmiss, hfail]

theorem preparex_error_path_witness :
    Tx.Preparex prepFail txEmpty "SELECT 1" =
      (Except.error (DbError.driver "boom"),
       { statementsCache := [], queries := ["SELECT 1"] },
       [Event.driverPrepare "SELECT 1"]) :=
  preparex_error_path prepFail txEmpty "SELECT 1" (DbError.driver "boom") rfl rfl

/-- `Tx.Commit` (beagle-db.go lines 626-635): delegate to the underlying
handle's commit, emit a warning with the full query log when the elapsed
time since transaction start exceeds one second (1e9 ns), always emit an
informational line with the elapsed time, and return the underlying
result unchanged. `commitResult` is the opaque underlying commit outcome
and `elapsedNanos` the opaque clock reading. -/
def Tx.Commit (commitResult : Except DbError Unit) (elapsedNanos : Nat) (tx : Tx) :
    Except DbError Unit × List Event :=
  let warnings :=
    if elapsedNanos > 1000000000 then
      [Event.logWarning "Transaction commit took long, took" elapsedNanos tx.queries]
    else []
  (commitResult, warnings ++ [Event.logInfo "Transaction commit, took" elapsedNanos])

/-- `Tx.Rollback` (beagle-db.go lines 637-641): delegate to the underlying
handle's rollback, always emit an informational line with the elapsed
time, and return the underlying result unchanged. -/
def Tx.Rollback (rollbackResult : Except DbError Unit) (elapsedNanos : Nat) (tx : Tx) :
    Except DbError Unit × List Event :=
  (rollbackResult, [Event.logInfo "Transaction rollback, took" elapsedNanos])

theorem Preparex_queries (prep : String → Except DbError Stmt) (tx : Tx) (q : String) :
    (Tx.Preparex prep tx q).2.1.queries = tx.queries ++ [q] := by
  unfold Tx.Preparex
  cases tx.statementsCache.lookup q with
  | some stmt => rfl
  | none =>
    cases prep q with
    | error e => rfl
    | ok stmt => rfl

theorem preparexMany_queries (prep : String → Except DbError Stmt) :
    ∀ (qs : List String) (tx : Tx),
      (Tx.preparexMany prep tx qs).queries = tx.queries ++ qs := by
  intro qs
  induction qs with
  | nil => intro tx; simp [Tx.preparexMany]
  | cons q qs' ih =>
    intro tx
    rw [Tx.preparexMany, ih, Preparex_queries]
    simp

/-- C3: `Commit` and `Rollback` return the underlying handle's result
unchanged; both always emit an informational log line with the elapsed
duration; `Commit` emits the warning line carrying the transaction's
query log exactly when the elapsed duration exceeds one second; and on a
fresh transaction the query log is exactly the sequence of prepare-call
texts in call order, so the warning lists every previously prepared query
text in the order first prepared. -/
theorem commit_rollback_logging (r : Except DbError Unit) (e : Nat) (tx : Tx)
    (prep : String → Except DbError Stmt) (qs : List String) :
    (Tx.Commit r e tx).1 = r ∧
    (Tx.Rollback r e tx).1 = r ∧
    (Tx.Rollback r e tx).2 = [Event.logInfo "Transaction rollback, took" e] ∧
    (1000000000 < e →
      (Tx.Commit r e tx).2 =
        [Event.logWarning "Transaction commit took long, took" e tx.queries,
         Event.logInfo "Transaction commit, took" e]) ∧
    (¬ 1000000000 < e →
      (Tx.Commit r e tx).2 = [Event.logInfo "Transaction commit, took" e]) ∧
    (Tx.preparexMany prep txEmpty qs).queries = qs := by
  refine ⟨rfl, rfl, rfl, ?_, ?_, ?_⟩
  · intro h
    simp [Tx.Commit, h]
  · intro h
    simp [Tx.Commit, h]
  · simpa [txEmpty] using preparexMany_queries prep qs txEmpty

def txAB : Tx := { statementsCache := [], queries := ["a", "b"] }

theorem commit_rollback_logging_witness :
    (Tx.Commit (Except.ok ()) 1500000000 txAB).2 =
      [Event.logWarning "Transaction commit took long, took" 1500000000 ["a", "b"],
       Event.logInfo "Transaction commit, took" 1500000000] ∧
    (Tx.Commit (Except.ok ()) 5 txAB).2 =
      [Event.logInfo "Transaction commit, took" 5] :=
  ⟨(commit_rollback_logging (Except.ok ()) 1500000000 txAB prepOk []).2.2.2.1
      (by decide),
   (commit_rollback_logging (Except.ok ()) 5 txAB prepOk []).2.2.2.2.1
      (by decide)⟩

/-- A dispatch target object. Go checks interface satisfaction at the call
site (`o.(Getter)` etc.); here each capability is an optional delegate.
`none` models an object whose concrete type does not implement the
capability interface; `some` carries the delegate's behaviour. The
delegates receive the underlying `*sqlx.Tx` handle in Go; the handle is
opaque, so a delegate is modelled by its result (for `Get`/`Select`, as a
function of the query arguments), and the invocation itself — with the
exact arguments passed — is recorded as a trace event. -/
structure Object where
  typeName : String
  get : Option (Queryx → Except DbError Unit) := none
  select : Option (String → List Param → Except DbError Unit) := none
  insert : Option (Except DbError Unit) := none
  update : Option (Except DbError Unit) := none
  insertOrUpdate : Option (Except DbError Unit) := none
  delete : Option (Except DbError Unit) := none

/-- `Tx.Getx` (beagle-db.go lines 692-699). -/
def Tx.Getx (o : Object) (qx : Queryx) (tx : Tx) :
    Except DbError Unit × Tx × List Event :=
  match o.get with
  | some u => (u qx, tx, [Event.callGet qx])
  | none =>
    (Except.error ErrNoGetterFound, tx,
     [Event.logError ("No getter found for object: " ++ o.typeName)])

/-- `Tx.Get` (beagle-db.go lines 702-709): textually identical body to
`Tx.Getx`. -/
def Tx.Get (o : Object) (qx : Queryx) (tx : Tx) :
    Except DbError Unit × Tx × List Event :=
  match o.get with
  | some u => (u qx, tx, [Event.callGet qx])
  | none =>
    (Except.error ErrNoGetterFound, tx,
     [Event.logError ("No getter found for object: " ++ o.typeName)])

/-- `Tx.InsertOrUpdate` (beagle-db.go lines 712-719). -/
def Tx.InsertOrUpdate (o : Object) (tx : Tx) :
    Except DbError Unit × Tx × List Event :=
  match o.insertOrUpdate with
  | some r => (r, tx, [Event.callInsertOrUpdate])
  | none =>
    (Except.error ErrNoInsertOrUpdaterFound, tx,
     [Event.logError ("No InsertOrUpdate found for object: " ++ o.typeName)])

/-- `Tx.Update` (beagle-db.go lines 722-729). -/
def Tx.Update (o : Object) (tx : Tx) :
    Except DbError Unit × Tx × List Event :=
  match o.update with
  | some r => (r, tx, [Event.callUpdate])
  | none =>
    (Except.error ErrNoUpdaterFound, tx,
     [Event.logError ("No updater found for object: " ++ o.typeName)])

/-- `Tx.Delete` (beagle-db.go lines 732-739). -/
def Tx.Delete (o : Object) (tx : Tx) :
    Except DbError Unit × Tx × List Event :=
  match o.delete with
  | some r => (r, tx, [Event.callDelete])
  | none =>
    (Except.error ErrNoDeleterFound, tx,
     [Event.logError ("No deleter found for object: " ++ o.typeName)])

/-- `Tx.Insert` (beagle-db.go lines 742-753): unlike the other dispatchers
it additionally logs the delegate's error message when the delegate
fails, then returns the delegate's result unchanged. -/
def Tx.Insert (o : Object) (tx : Tx) :
    Except DbError Unit × Tx × List Event :=
  match o.insert with
  | some r =>
    match r with
    | Except.error e => (Except.error e, tx, [Event.callInsert, Event.logError e.message])
    | Except.ok u => (Except.ok u, tx, [Event.callInsert])
  | none =>
    (Except.error ErrNoInserterFound, tx,
     [Event.logError ("No inserter found for object: " ++ o.typeName)])

/-- C4: when the object does not implement the capability interface of a
dispatch operation, that dispatch returns the fixed capability-specific
sentinel error, leaves the transaction state untouched, and its whole
event trace is a single error-log line naming the object's concrete type
— in particular no driver prepare, statement execution, or delegate call
occurs. -/
theorem dispatch_missing_capability (o : Object) (qx : Queryx) (tx : Tx) :
    (o.get = none →
      Tx.Getx o qx tx =
        (Except.error ErrNoGetterFound, tx,
         [Event.logError ("No getter found for object: " ++ o.typeName)])) ∧
    (o.get = none →
      Tx.Get o qx tx =
        (Except.error ErrNoGetterFound, tx,
         [Event.logError ("No getter found for object: " ++ o.typeName)])) ∧
    (o.insert = none →
      Tx.Insert o tx =
        (Except.error ErrNoInserterFound, tx,
         [Event.logError ("No inserter found for object: " ++ o.typeName)])) ∧
    (o.update = none →
      Tx.Update o tx =
        (Except.error ErrNoUpdaterFound, tx,
         [Event.logError ("No updater found for object: " ++ o.typeName)])) ∧
    (o.insertOrUpdate = none →
      Tx.InsertOrUpdate o tx =
        (Except.error ErrNoInsertOrUpdaterFound, tx,
         [Event.logError ("No InsertOrUpdate found for object: " ++ o.typeName)])) ∧
    (o.delete = none →
      Tx.Delete o tx =
        (Except.error ErrNoDeleterFound, tx,
         [Event.logError ("No deleter found for object: " ++ o.typeName)])) := by
  refine ⟨?_, ?_, ?_, ?_, ?_, ?_⟩ <;> intro h
  · simp [Tx.Getx, h]
  · simp [Tx.Get, h]
  · simp [Tx.Insert, h]
  · simp [Tx.Update, h]
  · simp [Tx.InsertOrUpdate, h]
  · simp [Tx.Delete, h]

def objEmpty : Object := { typeName := "main.Foo" }

def qx0 : Queryx := { Query := "SELECT 1", Params := [] }

theorem dispatch_missing_capability_witness :
    Tx.Getx objEmpty qx0 txEmpty =
      (Except.error ErrNoGetterFound, txEmpty,
       [Event.logError "No getter found for object: main.Foo"]) ∧
    Tx.Get objEmpty qx0 txEmpty =
      (Except.error ErrNoGetterFound, txEmpty,
       [Event.logError "No getter found for object: main.Foo"]) ∧
    Tx.Insert objEmpty txEmpty =
      (Except.error ErrNoInserterFound, txEmpty,
       [Event.logError "No inserter found for object: main.Foo"]) ∧
    Tx.Update objEmpty txEmpty =
      (Except.error ErrNoUpdaterFound, txEmpty,
       [Event.logError "No updater found for object: main.Foo"]) ∧
    Tx.InsertOrUpdate objEmpty txEmpty =
      (Except.error ErrNoInsertOrUpdaterFound, txEmpty,
       [Event.logError "No InsertOrUpdate found for object: main.Foo"]) ∧
    Tx.Delete objEmpty txEmpty =
      (Except.error ErrNoDeleterFound, txEmpty,
       [Event.logError "No deleter found for object: main.Foo"]) := by
  have h := dispatch_missing_capability objEmpty qx0 txEmpty
  exact ⟨h.1 rfl, h.2.1 rfl, h.2.2.1 rfl, h.2.2.2.1 rfl, h.2.2.2.2.1 rfl,
         h.2.2.2.2.2 rfl⟩

/-- C5: when the object implements the capability interface, the
dispatcher invokes its single delegate method exactly once with exactly
the arguments given to the dispatcher (for get, the Queryx carrying the
query and parameter list), leaves the transaction state untouched, and
returns the delegate's result — success or error — unchanged. For
`Insert`, a failing delegate additionally produces an error-log line, but
the returned result is still the delegate's own error. -/
theorem dispatch_capability_delegates (o : Object) (qx : Queryx) (tx : Tx) :
    (∀ u, o.get = some u → Tx.Getx o qx tx = (u qx, tx, [Event.callGet qx])) ∧
    (∀ u, o.get = some u → Tx.Get o qx tx = (u qx, tx, [Event.callGet qx])) ∧
    (∀ r, o.insert = some r →
      Tx.Insert o tx =
        (r, tx,
         Event.callInsert ::
           (match r with
            | Except.error e => [Event.logError e.message]
            | Except.ok _ => []))) ∧
    (∀ r, o.update = some r → Tx.Update o tx = (r, tx, [Event.callUpdate])) ∧
    (∀ r, o.insertOrUpdate = some r →
      Tx.InsertOrUpdate o tx = (r, tx, [Event.callInsertOrUpdate])) ∧
    (∀ r, o.delete = some r → Tx.Delete o tx = (r, tx, [Event.callDelete])) := by
  refine ⟨?_, ?_, ?_, ?_, ?_, ?_⟩ <;> intro r h
  · simp [Tx.Getx, h]
  · simp [Tx.Get, h]
  · cases r with
    | error e => simp [Tx.Insert, h]
    | ok u => simp [Tx.Insert, h]
  · simp [Tx.Update, h]
  · simp [Tx.InsertOrUpdate, h]
  · simp [Tx.Delete, h]

def objFull : Object :=
  { typeName := "main.Bar"
    get := some fun _ => Except.ok ()
    select := some fun _ _ => Except.ok ()
    insert := some (Except.error (DbError.driver "duplicate key"))
    update := some (Except.ok ())
    insertOrUpdate := some (Except.ok ())
    delete := some (Except.ok ()) }

theorem dispatch_capability_delegates_witness :
    Tx.Get objFull qx0 txEmpty = (Except.ok (), txEmpty, [Event.callGet qx0]) ∧
    Tx.Insert objFull txEmpty =
      (Except.error (DbError.driver "duplicate key"), txEmpty,
       [Event.callInsert, Event.logError "duplicate key"]) ∧
    Tx.Update objFull txEmpty = (Except.ok (), txEmpty, [Event.callUpdate]) ∧
    Tx.InsertOrUpdate objFull txEmpty =
      (Except.ok (), txEmpty, [Event.callInsertOrUpdate]) ∧
    Tx.Delete objFull txEmpty = (Except.ok (), txEmpty, [Event.callDelete]) := by
  have h := dispatch_capability_delegates objFull qx0 txEmpty
  exact ⟨h.2.1 _ rfl, h.2.2.1 _ rfl, h.2.2.2.1 _ rfl, h.2.2.2.2.1 _ rfl,
         h.2.2.2.2.2 _ rfl⟩

/-- C9: `Tx.Get` and `Tx.Getx` are behaviourally identical — on every
object, query and transaction state they return the same result, the
same state and the same event trace (same delegate invocation, same
error logging, same `ErrNoGetterFound` sentinel). -/
theorem get_eq_getx (o : Object) (qx : Queryx) (tx : Tx) :
    Tx.Get o qx tx = Tx.Getx o qx tx := rfl

/-- A select option (`selectOption` interface): `Wrap` rewrites a query
text and parameter list into new ones. Modelled from the spec: the
interface declaration lives outside the given source file; its single
method's shape is fixed by the call `option.Wrap(q, params)`. -/
structure selectOption where
  Wrap : String → List Param → String × List Param

/-- `Tx.Selectx` (beagle-db.go lines 644-666): fold the options left to
right over the query text and parameter list, log the final text at
debug level, then either dispatch to the object's `Selecter` capability
with the final text and parameters, or obtain a statement through the
cache (`Preparex`) and run a generic multi-row select with the final
parameters. `stmtSelect` is the oracle for `sqlx.Stmt.Select`. -/
def Tx.Selectx (stmtSelect : Stmt → List Param → Except DbError Unit)
    (prep : String → Except DbError Stmt)
    (o : Object) (qx : Queryx) (options : List selectOption) (tx : Tx) :
    Except DbError Unit × Tx × List Event :=
  let qp := options.foldl (fun acc option => option.Wrap acc.1 acc.2) (qx.Query, qx.Params)
  match o.select with
  | some u => (u qp.1 qp.2, tx, [Event.logDebug qp.1, Event.callSelect qp.1 qp.2])
  | none =>
    let r := Tx.Preparex prep tx qp.1
    match r.1 with
    | Except.error e => (Except.error e, r.2.1, Event.logDebug qp.1 :: r.2.2)
    | Except.ok stmt =>
      (stmtSelect stmt qp.2, r.2.1,
       Event.logDebug qp.1 :: r.2.2 ++ [Event.stmtSelect stmt qp.2])

/-- C6: `Selectx` applies the options in the order given, left to right,
each rewriting both the query text and the parameter list before the
next (first conjunct: consuming the head option first is the same as
restarting from the rewritten Queryx); with the final text and
parameters it dispatches to the object's `Selecter` capability when
present, and otherwise goes through the statement cache (`Preparex`) —
inheriting its state update — and performs the generic select with the
final parameters. -/
theorem selectx_options_and_dispatch
    (stmtSelect : Stmt → List Param → Except DbError Unit)
    (prep : String → Except DbError Stmt)
    (o : Object) (qx : Queryx) (options : List selectOption) (tx : Tx) :
    (∀ (q₀ : String) (p₀ : List Param) (opt : selectOption) (opts' : List selectOption),
      Tx.Selectx stmtSelect prep o ⟨q₀, p₀⟩ (opt :: opts') tx =
        Tx.Selectx stmtSelect prep o
          ⟨(opt.Wrap q₀ p₀).1, (opt.Wrap q₀ p₀).2⟩ opts' tx) ∧
    (∀ u, o.select = some u →
      Tx.Selectx stmtSelect prep o qx options tx =
        (u (options.foldl (fun acc option => option.Wrap acc.1 acc.2)
              (qx.Query, qx.Params)).1
           (options.foldl (fun acc option => option.Wrap acc.1 acc.2)
              (qx.Query, qx.Params)).2,
         tx,
         [Event.logDebug (options.foldl (fun acc option => option.Wrap acc.1 acc.2)
              (qx.Query, qx.Params)).1,
          Event.callSelect
            (options.foldl (fun acc option => option.Wrap acc.1 acc.2)
              (qx.Query, qx.Params)).1
            (options.foldl (fun acc option => option.Wrap acc.1 acc.2)
              (qx.Query, qx.Params)).2])) ∧
    (o.select = none →
      ((Tx.Selectx stmtSelect prep o qx options tx).2.1 =
        (Tx.Preparex prep tx
          (options.foldl (fun acc option => option.Wrap acc.1 acc.2)
            (qx.Query, qx.Params)).1).2.1 ∧
       (∀ e, (Tx.Preparex prep tx
                (options.foldl (fun acc option => option.Wrap acc.1 acc.2)
                  (qx.Query, qx.Params)).1).1 = Except.error e →
          (Tx.Selectx stmtSelect prep o qx options tx).1 = Except.error e) ∧
       (∀ stmt, (Tx.Preparex prep tx
                  (options.foldl (fun acc option => option.Wrap acc.1 acc.2)
                    (qx.Query, qx.Params)).1).1 = Except.ok stmt →
          (Tx.Selectx stmtSelect prep o qx options tx).1 =
            stmtSelect stmt
              (options.foldl (fun acc option => option.Wrap acc.1 acc.2)
                (qx.Query, qx.Params)).2))) := by
  refine ⟨?_, ?_, ?_⟩
  · intro q₀ p₀ opt opts'
    rfl
  · intro u h
    simp only [Tx.Selectx, h]
  · intro h
    refine ⟨?_, ?_, ?_⟩
    · simp only [Tx.Selectx, h]
      cases hr : (Tx.Preparex prep tx
          (options.foldl (fun acc option => option.Wrap acc.1 acc.2)
            (qx.Query, qx.Params)).1).1 <;> simp [hr]
    · intro e he
      simp only [Tx.Selectx, h]
      rw [he]
    · intro stmt hs
      simp only [Tx.Selectx, h]
      rw [hs]

def objSel : Object :=
  { typeName := "main.Baz"
    select := some fun _ _ => Except.ok () }

def optLimit : selectOption :=
  { Wrap := fun q p => (q ++ " LIMIT 10 OFFSET 5", p ++ ["10", "5"]) }

def optActive : selectOption :=
  { Wrap := fun q p => (q ++ " WHERE active = 1", p) }

def stmtSelectOk : Stmt → List Param → Except DbError Unit := fun _ _ => Except.ok ()

theorem selectx_options_and_dispatch_witness :
    Tx.Selectx stmtSelectOk prepOk objSel ⟨"SELECT a FROM t", []⟩
        (optLimit :: [optActive]) txEmpty =
      Tx.Selectx stmtSelectOk prepOk objSel
        ⟨"SELECT a FROM t LIMIT 10 OFFSET 5", ["10", "5"]⟩ [optActive] txEmpty ∧
    (Tx.Selectx stmtSelectOk prepOk objSel qx0 [optActive] txEmpty).1 =
      Except.ok () ∧
    (Tx.Selectx stmtSelectOk prepOk objEmpty qx0 [] txEmpty).2.1 =
      (Tx.Preparex prepOk txEmpty qx0.Query).2.1 ∧
    (Tx.Selectx stmtSelectOk prepOk objEmpty qx0 [] txEmpty).1 =
      stmtSelectOk 1 qx0.Params := by
  refine ⟨?_, ?_, ?_, ?_⟩
  · exact (selectx_options_and_dispatch stmtSelectOk prepOk objSel
      ⟨"SELECT a FROM t", []⟩ [] txEmpty).1 "SELECT a FROM t" [] optLimit [optActive]
  · have h2 := (selectx_options_and_dispatch stmtSelectOk prepOk objSel qx0
      [optActive] txEmpty).2.1 _ rfl
    rw [h2]
  · exact ((selectx_options_and_dispatch stmtSelectOk prepOk objEmpty qx0
      [] txEmpty).2.2 rfl).1
  · exact ((selectx_options_and_dispatch stmtSelectOk prepOk objEmpty qx0
      [] txEmpty).2.2 rfl).2.2 1 rfl

/-- C10: when the target object implements the `Selecter` capability,
`Selectx` leaves the transaction state — statement cache and diagnostic
query log — completely unchanged, and its event trace contains no driver
prepare: `Preparex` is never reached, so the select is never recorded for
the slow-commit warning list. -/
theorem selectx_selecter_frame
    (stmtSelect : Stmt → List Param → Except DbError Unit)
    (prep : String → Except DbError Stmt)
    (o : Object) (qx : Queryx) (options : List selectOption) (tx : Tx)
    (u : String → List Param → Except DbError Unit) (h : o.select = some u) :
    (Tx.Selectx stmtSelect prep o qx options tx).2.1.statementsCache =
      tx.statementsCache ∧
    (Tx.Selectx stmtSelect prep o qx options tx).2.1.queries = tx.queries ∧
    (∀ q, Event.driverPrepare q ∉ (Tx.Selectx stmtSelect prep o qx options tx).2.2) := by
  refine ⟨by simp [Tx.Selectx, h], by simp [Tx.Selectx, h], ?_⟩
  intro q hq
  simp [Tx.Selectx, h] at hq

theorem selectx_selecter_frame_witness :
    (Tx.Selectx stmtSelectOk prepOk objSel qx0 [optLimit] txEmpty).2.1.statementsCache =
      txEmpty.statementsCache ∧
    (Tx.Selectx stmtSelectOk prepOk objSel qx0 [optLimit] txEmpty).2.1.queries =
      txEmpty.queries ∧
    Event.driverPrepare "SELECT 1 LIMIT 10 OFFSET 5" ∉
      (Tx.Selectx stmtSelectOk prepOk objSel qx0 [optLimit] txEmpty).2.2 := by
  have h := selectx_selecter_frame stmtSelectOk prepOk objSel qx0 [optLimit] txEmpty
    (fun _ _ => Except.ok ()) rfl
  exact ⟨h.1, h.2.1, h.2.2 "SELECT 1 LIMIT 10 OFFSET 5"⟩

/-- `Tx.Countx` (beagle-db.go lines 669-678): wrap the Queryx's text as
`SELECT COUNT(*) FROM (<text>) q`, prepare it through the statement
cache, return `(0, err)` when that prepare fails, and otherwise execute
the statement with the Queryx's parameters and return the scanned count.
`stmtGetInt` is the oracle for `sqlx.Stmt.Get` into an int: on success
it yields the scanned count, on failure the count variable keeps its
initial value 0 and the error is returned next to it. -/
def Tx.Countx (stmtGetInt : Stmt → List Param → Except DbError Int)
    (prep : String → Except DbError Stmt) (qx : Queryx) (tx : Tx) :
    (Int × Option DbError) × Tx × List Event :=
  let r := Tx.Preparex prep tx ("SELECT COUNT(*) FROM (" ++ qx.Query ++ ") q")
  match r.1 with
  | Except.error e => ((0, some e), r.2.1, r.2.2)
  | Except.ok stmt =>
    match stmtGetInt stmt qx.Params with
    | Except.ok n => ((n, none), r.2.1, r.2.2 ++ [Event.stmtGet stmt qx.Params])
    | Except.error e => ((0, some e), r.2.1, r.2.2 ++ [Event.stmtGet stmt qx.Params])

/-- C7: `Countx` prepares exactly the wrapped text
`SELECT COUNT(*) FROM (<text>) q` through the statement cache — its
state update is `Preparex`'s, so that wrapped text is what lands in the
query log; when the prepare fails it returns the count 0 together with
the driver's error; when the prepare succeeds and the execution with the
Queryx's parameters scans a count, that scanned count is returned with
no error. -/
theorem countx_wraps_query (stmtGetInt : Stmt → List Param → Except DbError Int)
    (prep : String → Except DbError Stmt) (qx : Queryx) (tx : Tx) :
    (Tx.Countx stmtGetInt prep qx tx).2.1 =
      (Tx.Preparex prep tx ("SELECT COUNT(*) FROM (" ++ qx.Query ++ ") q")).2.1 ∧
    (Tx.Countx stmtGetInt prep qx tx).2.1.queries =
      tx.queries ++ ["SELECT COUNT(*) FROM (" ++ qx.Query ++ ") q"] ∧
    (∀ e, (Tx.Preparex prep tx ("SELECT COUNT(*) FROM (" ++ qx.Query ++ ") q")).1 =
        Except.error e →
      (Tx.Countx stmtGetInt prep qx tx).1 = (0, some e)) ∧
    (∀ stmt n,
      (Tx.Preparex prep tx ("SELECT COUNT(*) FROM (" ++ qx.Query ++ ") q")).1 =
        Except.ok stmt →
      stmtGetInt stmt qx.Params = Except.ok n →
      (Tx.Countx stmtGetInt prep qx tx).1 = (n, none)) := by
  refine ⟨?_, ?_, ?_, ?_⟩
  · simp only [Tx.Countx]
    cases hr : (Tx.Preparex prep tx
        ("SELECT COUNT(*) FROM (" ++ qx.Query ++ ") q")).1 with
    | error e => simp [hr]
    | ok stmt =>
      cases hg : stmtGetInt stmt qx.Params <;> simp [hr, hg]
  · simp only [Tx.Countx]
    cases hr : (Tx.Preparex prep tx
        ("SELECT COUNT(*) FROM (" ++ qx.Query ++ ") q")).1 with
    | error e => simp [hr, Preparex_queries]
    | ok stmt =>
      cases hg : stmtGetInt stmt qx.Params <;> simp [hr, hg, Preparex_queries]
  · intro e he
    simp only [Tx.Countx]
    rw [he]
  · intro stmt n hs hg
    simp only [Tx.Countx]
    rw [hs]
    simp [hg]

def stmtGetInt3 : Stmt → List Param → Except DbError Int := fun _ _ => Except.ok 3

theorem countx_wraps_query_witness :
    (Tx.Countx stmtGetInt3 prepOk qx0 txEmpty).2.1.queries =
      txEmpty.queries ++ ["SELECT COUNT(*) FROM (" ++ qx0.Query ++ ") q"] ∧
    (Tx.Countx stmtGetInt3 prepOk qx0 txEmpty).1 = (3, none) ∧
    (Tx.Countx stmtGetInt3 prepFail qx0 txEmpty).1 =
      (0, some (DbError.driver "boom")) := by
  refine ⟨?_, ?_, ?_⟩
  · exact (countx_wraps_query stmtGetInt3 prepOk qx0 txEmpty).2.1
  · exact (countx_wraps_query stmtGetInt3 prepOk qx0 txEmpty).2.2.2 1 3 rfl rfl
  · exact (countx_wraps_query stmtGetInt3 prepFail qx0 txEmpty).2.2.1
      (DbError.driver "boom") rfl

/-- Assignment lines emitted at the top of the generated `Update` method
(beagle-db.go lines 418-431): one `s.UpdatedAt = time.Now()` line per
db-tagged column named `updated_at`. -/
def updateAssignments (columns : List String) : List String :=
  columns.filterMap fun column =>
    if column == "updated_at" then some "s.UpdatedAt = time.Now()\n" else none

/-- Assignment lines emitted at the top of the generated `InsertOrUpdate`
method (beagle-db.go lines 434-449): `created_at` is explicitly skipped,
`updated_at` yields an `s.UpdatedAt = time.Now()` line. -/
def insertOrUpdateAssignments (columns : List String) : List String :=
  columns.filterMap fun column =>
    if column == "created_at" then none
    else if column == "updated_at" then some "s.UpdatedAt = time.Now()\n"
    else none

/-- Assignment lines emitted at the top of the generated `Insert` method
(beagle-db.go lines 451-467): `created_at` yields an
`s.CreatedAt = time.Now()` line, `updated_at` an
`s.UpdatedAt = time.Now()` line. -/
def insertAssignments (columns : List String) : List String :=
  columns.filterMap fun column =>
    if column == "created_at" then some "s.CreatedAt = time.Now()\n"
    else if column == "updated_at" then some "s.UpdatedAt = time.Now()\n"
    else none

def updateHeader (name : String) : String :=
  "func (s *" ++ name ++ ") Update(tx *sqlx.Tx) error \x7b\n"

def updateFooter (name : String) : String :=
  " _, err := tx.NamedExec(string(query" ++ name ++ "Update), s)\n\treturn err\n\x7d\n"

def insertOrUpdateHeader (name : String) : String :=
  "func (s *" ++ name ++ ") InsertOrUpdate(tx *sqlx.Tx) error \x7b\n"

def insertOrUpdateFooter (name : String) : String :=
  "\n\t_, err := tx.NamedExec(string(query" ++ name ++ "InsertOrUpdate), s)\n\treturn err\n\x7d\n"

def insertHeader (name : String) : String :=
  "func (s *" ++ name ++ ") Insert(tx *sqlx.Tx) error \x7b\n"

def insertFooter (name : String) : String :=
  "\n\t_, err := tx.NamedExec(string(query" ++ name ++ "Insert), s)\n\treturn err\n\x7d\n"

/-- The generated `Update` method as the ordered list of emitted chunks:
method header, then the timestamp assignments, then the `NamedExec` call
and closing brace. -/
def generateUpdateMethod (name : String) (columns : List String) : List String :=
  updateHeader name :: updateAssignments columns ++ [updateFooter name]

/-- The generated `InsertOrUpdate` method as the ordered list of emitted
chunks. -/
def generateInsertOrUpdateMethod (name : String) (columns : List String) : List String :=
  insertOrUpdateHeader name :: insertOrUpdateAssignments columns
    ++ [insertOrUpdateFooter name]

/-- The generated `Insert` method as the ordered list of emitted chunks. -/
def generateInsertMethod (name : String) (columns : List String) : List String :=
  insertHeader name :: insertAssignments columns ++ [insertFooter name]

/-- C8: for every processed struct type, a db-tagged column `created_at`
makes the generated `Insert` method emit `s.CreatedAt = time.Now()`, and
a column `updated_at` makes the generated `Insert`, `Update` and
`InsertOrUpdate` methods each emit `s.UpdatedAt = time.Now()`; each
generated method places these assignment lines between its header and
its `NamedExec` execution, so the fields are set before executing. -/
theorem generator_timestamp_population (name : String) (columns : List String) :
    ("created_at" ∈ columns →
      "s.CreatedAt = time.Now()\n" ∈ insertAssignments columns) ∧
    ("updated_at" ∈ columns →
      "s.UpdatedAt = time.Now()\n" ∈ insertAssignments columns ∧
      "s.UpdatedAt = time.Now()\n" ∈ updateAssignments columns ∧
      "s.UpdatedAt = time.Now()\n" ∈ insertOrUpdateAssignments columns) ∧
    generateInsertMethod name columns =
      insertHeader name :: insertAssignments columns ++ [insertFooter name] ∧
    generateUpdateMethod name columns =
      updateHeader name :: updateAssignments columns ++ [updateFooter name] ∧
    generateInsertOrUpdateMethod name columns =
      insertOrUpdateHeader name :: insertOrUpdateAssignments columns
        ++ [insertOrUpdateFooter name] := by
  refine ⟨?_, ?_, rfl, rfl, rfl⟩
  · intro h
    exact List.mem_filterMap.mpr ⟨"created_at", h, by decide⟩
  · intro h
    exact ⟨List.mem_filterMap.mpr ⟨"updated_at", h, by decide⟩,
           List.mem_filterMap.mpr ⟨"updated_at", h, by decide⟩,
           List.mem_filterMap.mpr ⟨"updated_at", h, by decide⟩⟩

theorem generator_timestamp_population_witness :
    "s.CreatedAt = time.Now()\n" ∈
      insertAssignments ["id", "created_at", "updated_at"] ∧
    "s.UpdatedAt = time.Now()\n" ∈
      updateAssignments ["id", "created_at", "updated_at"] ∧
    "s.UpdatedAt = time.Now()\n" ∈
      insertOrUpdateAssignments ["id", "created_at", "updated_at"] := by
  have h := generator_timestamp_population "Alert" ["id", "created_at", "updated_at"]
  exact ⟨h.1 (by decide), (h.2.1 (by decide)).2.1, (h.2.1 (by decide)).2.2⟩
